import Mathlib

/-!
# Code-Runner: shallow embedding of `src/server.js`

The repository is a single Express handler (`POST /execute`) that forwards a
`{language, code}` pair to a Docker daemon: it validates the request, maps the
language to an image, ensures the image is present (`pullImage`), creates a
resource-limited container, attaches to its combined output stream, starts it,
waits for completion, responds, and finally attempts to remove the container.

All interactions with the external Docker daemon are modelled by an
environment (`DockerEnv`) fixing the outcome of each external call; the
handler itself is embedded as the pure function `execute` over that
environment, which also records the ordered trace of runtime operations it
performs and whether the created container is still present afterwards.
-/

namespace CodeRunner

/-- A JavaScript value as it appears in a wait result's `StatusCode` field:
`null`, `undefined` (the field is absent), or a number. -/
inductive JsVal where
  | null
  | undef
  | num (n : Int)
deriving DecidableEq, Repr

/-- Result object of `container.wait`: dockerode resolves with an object whose
`StatusCode` field carries the exit status (possibly `null` or absent). -/
structure WaitResult where
  StatusCode : JsVal
deriving DecidableEq, Repr

/-- A JavaScript `Error` object as used by the handler: its `message` property
(possibly absent) and its stack trace. -/
structure ErrObj where
  message : Option String
  stack : String
deriving DecidableEq, Repr

/-- `HostConfig` of the container-creation request (`src/server.js` lines
49-57). -/
structure HostConfig where
  CpuShares : Nat
  Memory : Nat
  NetworkMode : String
deriving DecidableEq, Repr

/-- The argument object of `docker.createContainer` (`src/server.js` lines
45-58). -/
structure ContainerConfig where
  Image : String
  Cmd : List String
  Tty : Bool
  HostConfig : HostConfig
deriving DecidableEq, Repr

/-- Body of `POST /execute`: the two destructured fields, each possibly
absent (`undefined`). -/
structure ExecRequest where
  language : Option String
  code : Option String
deriving DecidableEq, Repr

/-- JavaScript truthiness of a possibly-absent string: `undefined` and the
empty string are falsy (`!language || !code` in the handler). -/
def truthy : Option String → Bool
  | none => false
  | some s => s ≠ ""

/-- The result of a JavaScript property lookup on a plain object literal:
an own property holding a string, a member inherited from
`Object.prototype` (a function, or for `__proto__` an object — in either
case a truthy non-string value), or `undefined` for an absent key. -/
inductive JsProp where
  | undef
  | protoVal (name : String)
  | str (s : String)
deriving DecidableEq, Repr

/-- The own property names of `Object.prototype`, inherited by every plain
object literal; looking any of them up on `languageImageMap` yields a
truthy non-string member. -/
def objectPrototypeKeys : List String :=
  ["constructor", "hasOwnProperty", "isPrototypeOf",
   "propertyIsEnumerable", "toLocaleString", "toString", "valueOf",
   "__defineGetter__", "__defineSetter__", "__lookupGetter__",
   "__lookupSetter__", "__proto__"]

/-- The JavaScript lookup `languageImageMap[language]` on the object
literal of `src/server.js` lines 14-17: the own properties `python` and
`javascript` yield the image name; a key of `Object.prototype` yields the
inherited member (truthy, not a string); every other key yields
`undefined`. -/
def languageImageMap (language : String) : JsProp :=
  if language = "python" then JsProp.str "python:3.9-slim"
  else if language = "javascript" then JsProp.str "node:18-alpine"
  else if language ∈ objectPrototypeKeys then JsProp.protoVal language
  else JsProp.undef

/-- JavaScript truthiness of the looked-up property, as tested by
`if (!imageName)`: `undefined` and the empty string are falsy; an
inherited function or object is truthy. -/
def JsProp.truthy : JsProp → Bool
  | JsProp.str s => s ≠ ""
  | JsProp.protoVal _ => true
  | JsProp.undef => false

/-- On the language map, the `!imageName` test fails exactly on `undefined`:
both own properties are non-empty strings and inherited members are
truthy, so matching `undefined` is a faithful rendering of the falsiness
check at `src/server.js` line 27. -/
theorem languageImageMap_falsy_iff_undef (s : String) :
    (languageImageMap s).truthy = false ↔
      languageImageMap s = JsProp.undef := by
  unfold languageImageMap
  split_ifs <;> simp [JsProp.truthy]

/-- The command run inside the container (`src/server.js` lines 32-34):
`language === 'python' ? ['python', '-c', code] : ['node', '-e', code]`. -/
def cmd (language code : String) : List String :=
  if language = "python" then ["python", "-c", code] else ["node", "-e", code]

/-- The full `docker.createContainer` argument built by the handler. -/
def mkConfig (imageName : String) (c : List String) : ContainerConfig :=
  { Image := imageName
    Cmd := c
    Tty := false
    HostConfig :=
      { CpuShares := 512
        Memory := 256 * 1024 * 1024
        NetworkMode := "none" } }

/-- One call into the external container runtime, in the order the handler
performs them.  `listImagesInvalidRef` is a list-images call attempted with
a non-string reference (the `Object.prototype` member inherited for the
named language). -/
inductive RuntimeOp where
  | listImages (ref : String)
  | listImagesInvalidRef (language : String)
  | pull (ref : String)
  | createContainer (config : ContainerConfig)
  | attach
  | start
  | wait
  | remove
deriving DecidableEq, Repr

/-- Outcomes of the external Docker-daemon calls for one request: the local
image list (as filtered by the image reference), and the result of each call
the handler can make.  `pullResult` folds `docker.pull` together with the
`followProgress` completion signal the handler awaits.  `attachErr` is the
error delivered to the attach callback, if any.  `containerOutput` is the
combined demuxed stdout/stderr text the container writes to the attached
stream.  `invalidRefError` is the error with which a list-images call made
with a non-string reference is rejected: the collaborator's list-images
operation consumes an image reference (a name/tag string), so a request
formed from an inherited `Object.prototype` member cannot be marshalled
into a valid call and fails with this environment-determined error. -/
structure DockerEnv where
  localImages : String → List String
  pullResult : String → Except ErrObj Unit
  createResult : ContainerConfig → Except ErrObj Unit
  attachErr : Option ErrObj
  startResult : Except ErrObj Unit
  waitResult : Except ErrObj WaitResult
  containerOutput : String
  removeResult : Except ErrObj Unit
  invalidRefError : String → ErrObj

/-- The helper `pullImage` (`src/server.js` lines 109-122): list local images
filtered by the reference; when the list is empty, pull the image and await
its completion signal; otherwise do nothing.  Returns the outcome together
with the runtime operations performed. -/
def pullImage (env : DockerEnv) (imageName : String) :
    Except ErrObj Unit × List RuntimeOp :=
  if (env.localImages imageName).length = 0 then
    ((env.pullResult imageName).map fun _ => (),
      [RuntimeOp.listImages imageName, RuntimeOp.pull imageName])
  else
    (Except.ok (), [RuntimeOp.listImages imageName])

/-- `error.message || 'An error occurred during execution.'`: the fallback is
used when `message` is absent or falsy (the empty string). -/
def errMessage (e : ErrObj) : String :=
  match e.message with
  | none => "An error occurred during execution."
  | some m => if m = "" then "An error occurred during execution." else m

/-- The text accumulated in the per-request `output` buffer: the attach
callback only logs an attach error and returns without wiring the demuxer,
so on attach failure the buffer stays empty; otherwise the buffer receives
the container's combined output. -/
def bufferedOutput (env : DockerEnv) : String :=
  if env.attachErr.isSome then "" else env.containerOutput

/-- JavaScript's `String.prototype.trim` (`output.trim()` in the handler):
removes whitespace from both ends of the string. -/
def jsTrim (s : String) : String :=
  ⟨((s.data.dropWhile Char.isWhitespace).reverse.dropWhile
      Char.isWhitespace).reverse⟩

/-- Body of an HTTP response: `{output: ...}` on success, `{error: ...}`
otherwise. -/
inductive RespBody where
  | outB (output : String)
  | errB (error : String)
deriving DecidableEq, Repr

/-- An HTTP response as produced by `res.status(s).json(b)`. -/
structure HttpResponse where
  status : Nat
  body : RespBody
deriving DecidableEq, Repr

/-- Result of one request: the response sent, the ordered trace of runtime
operations performed (attempted calls, whether or not they succeeded),
whether a container was actually created (the `container` variable was
assigned), and whether a container created for this request is still present
in the runtime's container list afterwards. -/
structure HandlerResult where
  response : HttpResponse
  ops : List RuntimeOp
  containerCreated : Bool
  containerRemains : Bool
deriving DecidableEq, Repr

/-- The `finally` block once a container exists (`src/server.js` lines
95-104): the response is whatever the `try`/`catch` produced, the removal of
the container is attempted after the run-phase operations, and the container
stays present exactly when `container.remove()` fails — that failure is only
logged. -/
def finalize (env : DockerEnv) (req : ExecRequest) (imageName : String)
    (resp : HttpResponse) (runOps : List RuntimeOp) : HandlerResult :=
  { response := resp
    ops := (pullImage env imageName).2 ++
      RuntimeOp.createContainer
        (mkConfig imageName (cmd (req.language.getD "") (req.code.getD ""))) ::
      RuntimeOp.attach :: (runOps ++ [RuntimeOp.remove])
    containerCreated := true
    containerRemains :=
      match env.removeResult with
      | Except.error _ => true
      | Except.ok _ => false }

/-- The `POST /execute` handler (`src/server.js` lines 19-105), embedded over
a `DockerEnv` fixing every external outcome.

Control flow follows the source: validate the two fields (`!language ||
!code`), look the language up with the JavaScript semantics of
`languageImageMap[language]`, and test the result with `!imageName`.  An
`undefined` lookup is falsy and is answered `400 Unsupported language.`;
an own image-name string and an inherited `Object.prototype` member are
both truthy and proceed into the `try` block.  For an inherited member the
first daemon call, the list-images of `pullImage`, is made with a
non-string reference, fails with the environment's `invalidRefError`, and
is answered by the `catch` with a 500 — no container is ever created.  For
an image-name string inside `try`: `pullImage`, `createContainer`, `attach`
(whose error is only logged), `start`, `wait` — a strictly-`null`
`StatusCode` throws `Error('Execution timed out.')` — else respond
`200 {output: output.trim()}`.  Any error thrown in the `try` is answered
by `500 {error: error.message || fallback}`.  The `finally` block attempts
`container.remove()` whenever a container was created; a removal failure
is only logged, leaving the container present. -/
def execute (env : DockerEnv) (req : ExecRequest) : HandlerResult :=
  if !truthy req.language || !truthy req.code then
    { response := ⟨400, RespBody.errB "Language and code are required."⟩
      ops := []
      containerCreated := false
      containerRemains := false }
  else
    match languageImageMap (req.language.getD "") with
    | JsProp.undef =>
        { response := ⟨400, RespBody.errB "Unsupported language."⟩
          ops := []
          containerCreated := false
          containerRemains := false }
    | JsProp.protoVal name =>
        { response :=
            ⟨500, RespBody.errB (errMessage (env.invalidRefError name))⟩
          ops := [RuntimeOp.listImagesInvalidRef name]
          containerCreated := false
          containerRemains := false }
    | JsProp.str imageName =>
        match (pullImage env imageName).1 with
        | Except.error e =>
            { response := ⟨500, RespBody.errB (errMessage e)⟩
              ops := (pullImage env imageName).2
              containerCreated := false
              containerRemains := false }
        | Except.ok _ =>
            match env.createResult
              (mkConfig imageName
                (cmd (req.language.getD "") (req.code.getD ""))) with
            | Except.error e =>
                { response := ⟨500, RespBody.errB (errMessage e)⟩
                  ops := (pullImage env imageName).2 ++
                    [RuntimeOp.createContainer
                      (mkConfig imageName
                        (cmd (req.language.getD "") (req.code.getD "")))]
                  containerCreated := false
                  containerRemains := false }
            | Except.ok _ =>
                match env.startResult with
                | Except.error e =>
                    finalize env req imageName
                      ⟨500, RespBody.errB (errMessage e)⟩ [RuntimeOp.start]
                | Except.ok _ =>
                    match env.waitResult with
                    | Except.error e =>
                        finalize env req imageName
                          ⟨500, RespBody.errB (errMessage e)⟩
                          [RuntimeOp.start, RuntimeOp.wait]
                    | Except.ok w =>
                        if w.StatusCode = JsVal.null then
                          finalize env req imageName
                            ⟨500, RespBody.errB "Execution timed out."⟩
                            [RuntimeOp.start, RuntimeOp.wait]
                        else
                          finalize env req imageName
                            ⟨200, RespBody.outB (jsTrim (bufferedOutput env))⟩
                            [RuntimeOp.start, RuntimeOp.wait]

/-! ## Concrete environments used to instantiate the theorems -/

/-- Environment in which the image is already local and every daemon call
succeeds; the container exits with status `0` after writing `2\n`.  A
list-images call with a non-string reference is rejected with the daemon's
usual invalid-reference error. -/
def okEnv : DockerEnv :=
  { localImages := fun _ => ["img0"]
    pullResult := fun _ => Except.ok ()
    createResult := fun _ => Except.ok ()
    attachErr := none
    startResult := Except.ok ()
    waitResult := Except.ok ⟨JsVal.num 0⟩
    containerOutput := "2\n"
    removeResult := Except.ok ()
    invalidRefError := fun _ =>
      ⟨some "invalid reference format", "stack:badref"⟩ }

/-- A request running `print(1+1)` under `python`. -/
def pyReq : ExecRequest := ⟨some "python", some "print(1+1)"⟩

/-- `okEnv`, but the wait result carries a `null` `StatusCode`. -/
def nullStatusEnv : DockerEnv :=
  { okEnv with waitResult := Except.ok ⟨JsVal.null⟩ }

/-- `okEnv`, but the wait result has no `StatusCode` field (`undefined`). -/
def undefStatusEnv : DockerEnv :=
  { okEnv with waitResult := Except.ok ⟨JsVal.undef⟩ }

/-- `okEnv`, but the attach callback receives an error. -/
def attachFailEnv : DockerEnv :=
  { okEnv with attachErr := some ⟨some "attach failed", "stack:attach"⟩ }

/-- `okEnv`, but the image is absent locally and the pull fails. -/
def pullFailEnv : DockerEnv :=
  { okEnv with
    localImages := fun _ => []
    pullResult := fun _ => Except.error ⟨some "pull failed", "stack:pull"⟩ }

/-- `okEnv`, but the image is absent locally (the pull succeeds). -/
def needPullEnv : DockerEnv :=
  { okEnv with localImages := fun _ => [] }

/-- `okEnv`, but container removal fails. -/
def removeFailEnv : DockerEnv :=
  { okEnv with
    removeResult := Except.error ⟨some "remove failed", "stack:remove"⟩ }

/-- Recognises a container-creation operation. -/
def isCreate : RuntimeOp → Bool
  | RuntimeOp.createContainer _ => true
  | _ => false

/-! ## General lemmas about the embedding -/

/-- Inverting a lookup that lands on an own, string-valued property of the
language map: only the two supported languages do. -/
theorem languageImageMap_eq_str {s img : String}
    (h : languageImageMap s = JsProp.str img) :
    (s = "python" ∧ img = "python:3.9-slim") ∨
    (s = "javascript" ∧ img = "node:18-alpine") := by
  unfold languageImageMap at h
  split_ifs at h <;> simp_all

/-- `pullImage` only ever lists images and pulls. -/
theorem pullImage_ops_sub {env : DockerEnv} {img : String} {op : RuntimeOp}
    (h : op ∈ (pullImage env img).2) :
    op = RuntimeOp.listImages img ∨ op = RuntimeOp.pull img := by
  unfold pullImage at h
  split at h <;> simp_all

/-- A truthy optional string is a present, non-empty string. -/
theorem truthy_iff {o : Option String} :
    truthy o = true ↔ ∃ s, o = some s ∧ s ≠ "" := by
  cases o <;> simp [truthy]

/-- Characterisation of a `createContainer` call in the trace: it only
happens after validation, with the mapped image, after `pullImage` succeeded,
and with the handler's fixed configuration; the trace up to that point is
exactly the `pullImage` trace, and no further `createContainer` call
follows. -/
theorem execute_create_shape {env : DockerEnv} {req : ExecRequest}
    {config : ContainerConfig}
    (h : RuntimeOp.createContainer config ∈ (execute env req).ops) :
    truthy req.language = true ∧ truthy req.code = true ∧
    ∃ imageName rest,
      languageImageMap (req.language.getD "") = JsProp.str imageName ∧
      (pullImage env imageName).1 = Except.ok () ∧
      config = mkConfig imageName
        (cmd (req.language.getD "") (req.code.getD "")) ∧
      (execute env req).ops = (pullImage env imageName).2 ++
        RuntimeOp.createContainer config :: rest ∧
      (∀ c, RuntimeOp.createContainer c ∉ rest) := by
  by_cases hval : (!truthy req.language || !truthy req.code) = true
  · unfold execute at h
    rw [if_pos hval] at h
    simp at h
  · have hL : truthy req.language = true := by
      cases hl : truthy req.language
      · exact absurd (by simp [hl]) hval
      · rfl
    have hC : truthy req.code = true := by
      cases hc : truthy req.code
      · exact absurd (by simp [hc]) hval
      · rfl
    refine ⟨hL, hC, ?_⟩
    rcases himg : languageImageMap (req.language.getD "")
        with _ | name | imageName
    · unfold execute at h
      simp only [hL, hC, himg] at h
      simp at h
    · unfold execute at h
      simp only [hL, hC, himg] at h
      simp at h
    · rcases hpull : (pullImage env imageName).1 with e | u
      · unfold execute at h
        simp only [hL, hC, himg, hpull] at h
        simp only [Bool.not_true, Bool.or_self, Bool.false_or,
          if_false] at h
        rcases pullImage_ops_sub h with h' | h' <;> simp at h'
      · cases u
        rcases hcreate : env.createResult
            (mkConfig imageName
              (cmd (req.language.getD "") (req.code.getD ""))) with e | u2
        · have hex : (execute env req).ops = (pullImage env imageName).2 ++
              [RuntimeOp.createContainer
                (mkConfig imageName
                  (cmd (req.language.getD "") (req.code.getD "")))] := by
            unfold execute
            simp [hL, hC, himg, hpull, hcreate]
          rw [hex] at h
          have hcfg : config = mkConfig imageName
              (cmd (req.language.getD "") (req.code.getD "")) := by
            rcases List.mem_append.mp h with h' | h'
            · rcases pullImage_ops_sub h' with h'' | h'' <;> simp at h''
            · simpa using h'
          exact ⟨imageName, [], rfl, hpull, hcfg, by rw [hex, hcfg],
            by simp⟩
        · cases u2
          have hrest : ∃ runOps, (runOps = [RuntimeOp.start] ∨
              runOps = [RuntimeOp.start, RuntimeOp.wait]) ∧
              (execute env req).ops = (pullImage env imageName).2 ++
                RuntimeOp.createContainer
                  (mkConfig imageName
                    (cmd (req.language.getD "") (req.code.getD ""))) ::
                RuntimeOp.attach :: (runOps ++ [RuntimeOp.remove]) := by
            rcases hstart : env.startResult with e | u3
            · refine ⟨[RuntimeOp.start], Or.inl rfl, ?_⟩
              unfold execute
              simp [hL, hC, himg, hpull, hcreate, hstart, finalize]
            · cases u3
              rcases hwait : env.waitResult with e | w
              · refine ⟨[RuntimeOp.start, RuntimeOp.wait], Or.inr rfl, ?_⟩
                unfold execute
                simp [hL, hC, himg, hpull, hcreate, hstart, hwait, finalize]
              · refine ⟨[RuntimeOp.start, RuntimeOp.wait], Or.inr rfl, ?_⟩
                unfold execute
                by_cases hsc : w.StatusCode = JsVal.null
                · simp [hL, hC, himg, hpull, hcreate, hstart, hwait, hsc,
                    finalize]
                · simp [hL, hC, himg, hpull, hcreate, hstart, hwait, hsc,
                    finalize]
          rcases hrest with ⟨runOps, hro, hex⟩
          rw [hex] at h
          have hcfg : config = mkConfig imageName
              (cmd (req.language.getD "") (req.code.getD "")) := by
            rcases List.mem_append.mp h with h' | h'
            · rcases pullImage_ops_sub h' with h'' | h'' <;> simp at h''
            · rcases List.mem_cons.mp h' with h'' | h''
              · simpa using h''
              · rcases hro with rfl | rfl <;> simp at h''
          refine ⟨imageName,
            RuntimeOp.attach :: (runOps ++ [RuntimeOp.remove]),
            rfl, hpull, hcfg, by rw [hex, hcfg], ?_⟩
          intro c
          rcases hro with rfl | rfl <;> simp

/-- The removal attempt is the last runtime operation of a finalized run. -/
theorem finalize_ops_getLast (env : DockerEnv) (req : ExecRequest)
    (imageName : String) (resp : HttpResponse) (runOps : List RuntimeOp) :
    (finalize env req imageName resp runOps).ops.getLast? =
      some RuntimeOp.remove := by
  unfold finalize
  have h : (pullImage env imageName).2 ++
      RuntimeOp.createContainer
        (mkConfig imageName
          (cmd (req.language.getD "") (req.code.getD ""))) ::
      RuntimeOp.attach :: (runOps ++ [RuntimeOp.remove]) =
      ((pullImage env imageName).2 ++
        RuntimeOp.createContainer
          (mkConfig imageName
            (cmd (req.language.getD "") (req.code.getD ""))) ::
        RuntimeOp.attach :: runOps) ++ [RuntimeOp.remove] := by
    simp
  rw [h, List.getLast?_concat]

/-- Case analysis on the handler: the result is a validation rejection, an
invalid-reference failure for an inherited language key, a pull failure, a
create failure, or a finalized run. -/
theorem execute_branches (env : DockerEnv) (req : ExecRequest) :
    (∃ resp, execute env req = ⟨resp, [], false, false⟩) ∨
    (∃ resp name, execute env req =
      ⟨resp, [RuntimeOp.listImagesInvalidRef name], false, false⟩) ∨
    (∃ resp imageName, execute env req =
      ⟨resp, (pullImage env imageName).2, false, false⟩) ∨
    (∃ resp imageName, execute env req =
      ⟨resp, (pullImage env imageName).2 ++
        [RuntimeOp.createContainer
          (mkConfig imageName
            (cmd (req.language.getD "") (req.code.getD "")))],
        false, false⟩) ∨
    (∃ resp imageName runOps, execute env req =
      finalize env req imageName resp runOps) := by
  by_cases hval : (!truthy req.language || !truthy req.code) = true
  · refine Or.inl ⟨⟨400, RespBody.errB "Language and code are required."⟩, ?_⟩
    unfold execute
    rw [if_pos hval]
  · have hL : truthy req.language = true := by
      cases hl : truthy req.language
      · exact absurd (by simp [hl]) hval
      · rfl
    have hC : truthy req.code = true := by
      cases hc : truthy req.code
      · exact absurd (by simp [hc]) hval
      · rfl
    rcases himg : languageImageMap (req.language.getD "")
        with _ | name | imageName
    · refine Or.inl ⟨⟨400, RespBody.errB "Unsupported language."⟩, ?_⟩
      unfold execute
      simp [hL, hC, himg]
    · refine Or.inr (Or.inl
        ⟨⟨500, RespBody.errB (errMessage (env.invalidRefError name))⟩,
          name, ?_⟩)
      unfold execute
      simp [hL, hC, himg]
    · rcases hp : (pullImage env imageName).1 with e | u
      · refine Or.inr (Or.inr (Or.inl
          ⟨⟨500, RespBody.errB (errMessage e)⟩, imageName, ?_⟩))
        unfold execute
        simp [hL, hC, himg, hp]
      · cases u
        rcases hc : env.createResult
            (mkConfig imageName
              (cmd (req.language.getD "") (req.code.getD ""))) with e | u
        · refine Or.inr (Or.inr (Or.inr (Or.inl
            ⟨⟨500, RespBody.errB (errMessage e)⟩, imageName, ?_⟩)))
          unfold execute
          simp [hL, hC, himg, hp, hc]
        · cases u
          rcases hs : env.startResult with e | u
          · refine Or.inr (Or.inr (Or.inr (Or.inr
              ⟨⟨500, RespBody.errB (errMessage e)⟩, imageName,
                [RuntimeOp.start], ?_⟩)))
            unfold execute
            simp [hL, hC, himg, hp, hc, hs]
          · cases u
            rcases hw : env.waitResult with e | w
            · refine Or.inr (Or.inr (Or.inr (Or.inr
                ⟨⟨500, RespBody.errB (errMessage e)⟩, imageName,
                  [RuntimeOp.start, RuntimeOp.wait], ?_⟩)))
              unfold execute
              simp [hL, hC, himg, hp, hc, hs, hw]
            · by_cases hsc : w.StatusCode = JsVal.null
              · refine Or.inr (Or.inr (Or.inr (Or.inr
                  ⟨⟨500, RespBody.errB "Execution timed out."⟩, imageName,
                    [RuntimeOp.start, RuntimeOp.wait], ?_⟩)))
                unfold execute
                simp [hL, hC, himg, hp, hc, hs, hw, hsc]
              · refine Or.inr (Or.inr (Or.inr (Or.inr
                  ⟨⟨200, RespBody.outB (jsTrim (bufferedOutput env))⟩,
                    imageName, [RuntimeOp.start, RuntimeOp.wait], ?_⟩)))
                unfold execute
                simp [hL, hC, himg, hp, hc, hs, hw, hsc]

/-- The HTTP response is fully determined before the `finally` block runs:
it does not depend on the result of the removal attempt. -/
theorem execute_removeResult_response (env : DockerEnv) (req : ExecRequest)
    (r : Except ErrObj Unit) :
    (execute { env with removeResult := r } req).response =
      (execute env req).response := by
  obtain ⟨li, pr, cr, ae, sr, wr, co, rr, ire⟩ := env
  have hp : ∀ img,
      pullImage ⟨li, pr, cr, ae, sr, wr, co, r, ire⟩ img =
        pullImage ⟨li, pr, cr, ae, sr, wr, co, rr, ire⟩ img := fun _ => rfl
  have hbuf : bufferedOutput ⟨li, pr, cr, ae, sr, wr, co, r, ire⟩ =
      bufferedOutput ⟨li, pr, cr, ae, sr, wr, co, rr, ire⟩ := rfl
  by_cases hval : (!truthy req.language || !truthy req.code) = true
  · unfold execute
    rw [if_pos hval, if_pos hval]
  · have hL : truthy req.language = true := by
      cases hl : truthy req.language
      · exact absurd (by simp [hl]) hval
      · rfl
    have hC : truthy req.code = true := by
      cases hc : truthy req.code
      · exact absurd (by simp [hc]) hval
      · rfl
    rcases himg : languageImageMap (req.language.getD "")
        with _ | name | imageName
    · unfold execute
      simp [hL, hC, himg]
    · unfold execute
      simp [hL, hC, himg]
    · rcases hpr :
          (pullImage ⟨li, pr, cr, ae, sr, wr, co, rr, ire⟩ imageName).1
          with e | u
      · unfold execute
        simp [hp, hL, hC, himg, hpr]
      · cases u
        rcases hc : cr (mkConfig imageName
            (cmd (req.language.getD "") (req.code.getD ""))) with e | u
        · unfold execute
          simp [hp, hL, hC, himg, hpr, hc]
        · cases u
          rcases sr with e | u
          · unfold execute
            simp [hp, hL, hC, himg, hpr, hc, finalize]
          · cases u
            rcases wr with e | w
            · unfold execute
              simp [hp, hL, hC, himg, hpr, hc, finalize]
            · by_cases hsc : w.StatusCode = JsVal.null
              · unfold execute
                simp [hp, hL, hC, himg, hpr, hc, hsc, finalize]
              · unfold execute
                simp [hp, hbuf, hL, hC, himg, hpr, hc, hsc, finalize]

/-- An error object with its stack trace removed. -/
def scrubErr (e : ErrObj) : ErrObj := ⟨e.message, ""⟩

/-- Removes the stack trace from a call outcome. -/
def scrubExcept {α : Type} : Except ErrObj α → Except ErrObj α
  | Except.error e => Except.error (scrubErr e)
  | Except.ok a => Except.ok a

/-- The same environment with every error's stack trace removed. -/
def scrubStacks (env : DockerEnv) : DockerEnv :=
  { localImages := env.localImages
    pullResult := fun s => scrubExcept (env.pullResult s)
    createResult := fun c => scrubExcept (env.createResult c)
    attachErr := Option.map scrubErr env.attachErr
    startResult := scrubExcept env.startResult
    waitResult := scrubExcept env.waitResult
    containerOutput := env.containerOutput
    removeResult := scrubExcept env.removeResult
    invalidRefError := fun s => scrubErr (env.invalidRefError s) }

/-- The message put in an error response never involves the stack trace. -/
theorem errMessage_scrub (e : ErrObj) :
    errMessage (scrubErr e) = errMessage e := by
  cases e
  rfl

/-- `pullImage` commutes with stack scrubbing. -/
theorem pullImage_scrub (env : DockerEnv) (img : String) :
    (pullImage (scrubStacks env) img).1 = scrubExcept (pullImage env img).1 ∧
    (pullImage (scrubStacks env) img).2 = (pullImage env img).2 := by
  unfold pullImage scrubStacks
  by_cases h : (env.localImages img).length = 0
  · rcases hp : env.pullResult img with e | u <;>
      simp [h, hp, scrubExcept, Except.map]
  · simp [h, scrubExcept]

/-- The output buffer does not involve any stack trace. -/
theorem bufferedOutput_scrub (env : DockerEnv) :
    bufferedOutput (scrubStacks env) = bufferedOutput env := by
  unfold bufferedOutput scrubStacks
  cases env.attachErr <;> simp

/-- `finalize` commutes with stack scrubbing. -/
theorem finalize_scrub (env : DockerEnv) (req : ExecRequest)
    (imageName : String) (resp : HttpResponse) (runOps : List RuntimeOp) :
    finalize (scrubStacks env) req imageName resp runOps =
      finalize env req imageName resp runOps := by
  unfold finalize
  rw [(pullImage_scrub env imageName).2]
  rcases hr : env.removeResult with e | u <;>
    simp [scrubStacks, scrubExcept, hr]

/-- The entire handler result is invariant under removing every stack trace
from the environment: no stack trace ever reaches the response. -/
theorem execute_ignores_stacks (env : DockerEnv) (req : ExecRequest) :
    execute (scrubStacks env) req = execute env req := by
  have hp1 : ∀ img, (pullImage (scrubStacks env) img).1 =
      scrubExcept (pullImage env img).1 := fun img =>
    (pullImage_scrub env img).1
  have hp2 : ∀ img, (pullImage (scrubStacks env) img).2 =
      (pullImage env img).2 := fun img => (pullImage_scrub env img).2
  have hcr : ∀ c, (scrubStacks env).createResult c =
      scrubExcept (env.createResult c) := fun _ => rfl
  have hsr : (scrubStacks env).startResult = scrubExcept env.startResult :=
    rfl
  have hwr : (scrubStacks env).waitResult = scrubExcept env.waitResult := rfl
  have hire : ∀ s, (scrubStacks env).invalidRefError s =
      scrubErr (env.invalidRefError s) := fun _ => rfl
  by_cases hval : (!truthy req.language || !truthy req.code) = true
  · unfold execute
    rw [if_pos hval, if_pos hval]
  · have hL : truthy req.language = true := by
      cases hl : truthy req.language
      · exact absurd (by simp [hl]) hval
      · rfl
    have hC : truthy req.code = true := by
      cases hc : truthy req.code
      · exact absurd (by simp [hc]) hval
      · rfl
    rcases himg : languageImageMap (req.language.getD "")
        with _ | name | imageName
    · unfold execute
      simp [hL, hC, himg]
    · unfold execute
      simp [hL, hC, himg, hire, errMessage_scrub]
    · rcases hpr : (pullImage env imageName).1 with e | u
      · unfold execute
        simp [hL, hC, himg, hpr, hp1, hp2, scrubExcept, errMessage_scrub]
      · cases u
        rcases hc : env.createResult
            (mkConfig imageName
              (cmd (req.language.getD "") (req.code.getD ""))) with e | u
        · unfold execute
          simp [hL, hC, himg, hpr, hp1, hp2, hcr, hc, scrubExcept,
            errMessage_scrub]
        · cases u
          rcases hs : env.startResult with e | u
          · unfold execute
            simp [hL, hC, himg, hpr, hp1, hp2, hcr, hc, hsr, hs,
              scrubExcept, errMessage_scrub, finalize_scrub]
          · cases u
            rcases hw : env.waitResult with e | w
            · unfold execute
              simp [hL, hC, himg, hpr, hp1, hp2, hcr, hc, hsr, hs, hwr, hw,
                scrubExcept, errMessage_scrub, finalize_scrub]
            · by_cases hsc : w.StatusCode = JsVal.null
              · unfold execute
                simp [hL, hC, himg, hpr, hp1, hp2, hcr, hc, hsr, hs, hwr,
                  hw, hsc, scrubExcept, finalize_scrub]
              · unfold execute
                simp [hL, hC, himg, hpr, hp1, hp2, hcr, hc, hsr, hs, hwr,
                  hw, hsc, scrubExcept, finalize_scrub, bufferedOutput_scrub]

/-! ## Claims -/

/-- **C1.** For every request with a supported language whose container run
completes successfully (the wait call resolves with a non-null exit status
within the timeout), the handler responds `200` with a JSON body whose
`output` field is exactly the buffered combined stdout/stderr text with
surrounding whitespace trimmed. -/
theorem success_returns_trimmed_buffered_output
    (env : DockerEnv) (req : ExecRequest) (imageName : String)
    (w : WaitResult)
    (hL : truthy req.language = true) (hC : truthy req.code = true)
    (himg : languageImageMap (req.language.getD "") = JsProp.str imageName)
    (hpull : (pullImage env imageName).1 = Except.ok ())
    (hcreate : env.createResult
      (mkConfig imageName
        (cmd (req.language.getD "") (req.code.getD ""))) = Except.ok ())
    (hstart : env.startResult = Except.ok ())
    (hwait : env.waitResult = Except.ok w)
    (hstatus : w.StatusCode ≠ JsVal.null) :
    (execute env req).response =
      ⟨200, RespBody.outB (jsTrim (bufferedOutput env))⟩ := by
  unfold execute
  simp [hL, hC, himg, hpull, hcreate, hstart, hwait, hstatus, finalize]

/-- Witness for C1: `print(1+1)` under `python` in `okEnv` answers
`200 {output: "2"}`. -/
theorem success_returns_trimmed_buffered_output_witness :
    (execute okEnv pyReq).response = ⟨200, RespBody.outB "2"⟩ := by
  have h := success_returns_trimmed_buffered_output okEnv pyReq
    "python:3.9-slim" ⟨JsVal.num 0⟩ (by decide) (by decide) (by decide)
    rfl rfl rfl rfl (by decide)
  rw [h]
  decide

/-- **C2.** Every container-creation call disables networking
(`NetworkMode` `none`), limits memory to exactly 256MB and CPU shares to
512, and runs the language's interpreter directly on the supplied code
(`python -c code` for python, `node -e code` for javascript). -/
theorem created_container_is_sandboxed
    (env : DockerEnv) (req : ExecRequest) (config : ContainerConfig)
    (h : RuntimeOp.createContainer config ∈ (execute env req).ops) :
    config.HostConfig.NetworkMode = "none" ∧
    config.HostConfig.Memory = 256 * 1024 * 1024 ∧
    config.HostConfig.CpuShares = 512 ∧
    ((req.language = some "python" ∧
        config.Cmd = ["python", "-c", req.code.getD ""]) ∨
     (req.language = some "javascript" ∧
        config.Cmd = ["node", "-e", req.code.getD ""])) := by
  obtain ⟨hL, hC, imageName, rest, himg, hpull, hcfg, hops, hrest⟩ :=
    execute_create_shape h
  obtain ⟨s, hs, hne⟩ := truthy_iff.mp hL
  rw [hs] at himg hcfg
  simp only [Option.getD_some] at himg hcfg
  subst hcfg
  rcases languageImageMap_eq_str himg with ⟨hsp, _⟩ | ⟨hsp, _⟩ <;>
    subst hsp <;> simp [mkConfig, cmd, hs]

/-- Witness for C2: the container created for `pyReq` in `okEnv`. -/
theorem created_container_is_sandboxed_witness :
    (mkConfig "python:3.9-slim"
        ["python", "-c", "print(1+1)"]).HostConfig.NetworkMode = "none" ∧
    (mkConfig "python:3.9-slim"
        ["python", "-c", "print(1+1)"]).HostConfig.Memory =
      256 * 1024 * 1024 := by
  have h := created_container_is_sandboxed okEnv pyReq
    (mkConfig "python:3.9-slim" ["python", "-c", "print(1+1)"]) (by decide)
  exact ⟨h.1, h.2.1⟩

/-- Requests whose `language` or `code` field is missing (falsy) are
answered `400 Language and code are required.` whatever the language is —
this check precedes the language lookup — and requests with both fields
present whose language lookup is `undefined` are answered
`400 Unsupported language.`. -/
theorem validation_rejects_bad_requests
    (env : DockerEnv) (req : ExecRequest) :
    ((!truthy req.language || !truthy req.code) = true →
      execute env req =
        ⟨⟨400, RespBody.errB "Language and code are required."⟩, [],
          false, false⟩) ∧
    (truthy req.language = true → truthy req.code = true →
      languageImageMap (req.language.getD "") = JsProp.undef →
      execute env req =
        ⟨⟨400, RespBody.errB "Unsupported language."⟩, [],
          false, false⟩) := by
  constructor
  · intro h
    unfold execute
    rw [if_pos h]
  · intro hL hC himg
    unfold execute
    simp [hL, hC, himg]

/-- A request with unsupported language and missing code is rejected for
the missing field; the same language with code present is rejected as
unsupported. -/
theorem validation_rejects_bad_requests_witness :
    execute okEnv ⟨some "ruby", none⟩ =
      ⟨⟨400, RespBody.errB "Language and code are required."⟩, [],
        false, false⟩ ∧
    execute okEnv ⟨some "ruby", some "puts 1"⟩ =
      ⟨⟨400, RespBody.errB "Unsupported language."⟩, [],
        false, false⟩ :=
  ⟨(validation_rejects_bad_requests okEnv ⟨some "ruby", none⟩).1 (by decide),
   (validation_rejects_bad_requests okEnv ⟨some "ruby", some "puts 1"⟩).2
     (by decide) (by decide) (by decide)⟩

/-- **C3.** The claim fails on the code at `language = "toString"`: the
object lookup `languageImageMap["toString"]` returns the truthy
`Object.prototype` member, so the `!imageName` check at `src/server.js`
line 27 is skipped and the request — though its language is not in
`{python, javascript}` — is *not* answered 400: it proceeds into the
runtime path, where the list-images call made with the non-string
reference fails and the catch answers 500.  (A 400 would require the
lookup to be falsy, which it is not; the missing-field half of the claim
does hold, see `validation_rejects_bad_requests`.) -/
theorem prototype_language_not_rejected :
    (execute okEnv ⟨some "toString", some "x"⟩).response =
      ⟨500, RespBody.errB "invalid reference format"⟩ ∧
    (execute okEnv ⟨some "toString", some "x"⟩).response.status ≠ 400 ∧
    (languageImageMap "toString").truthy = true := by
  decide

/-- **C9.** A request whose `language` or `code` is present but falsy (the
empty string) is rejected exactly like a missing field — `400` with
`Language and code are required.` — and no container-runtime operation is
performed (`ops = []`). -/
theorem falsy_present_fields_rejected_without_runtime_ops
    (env : DockerEnv) (req : ExecRequest)
    (h : req.language = some "" ∨ req.code = some "") :
    execute env req =
      ⟨⟨400, RespBody.errB "Language and code are required."⟩, [],
        false, false⟩ := by
  have hcond : (!truthy req.language || !truthy req.code) = true := by
    rcases h with h | h <;> rw [h] <;> simp [truthy]
  unfold execute
  rw [if_pos hcond]

/-- Witness for C9: empty-string language. -/
theorem falsy_present_fields_rejected_without_runtime_ops_witness :
    execute okEnv ⟨some "", some "print(1+1)"⟩ =
      ⟨⟨400, RespBody.errB "Language and code are required."⟩, [],
        false, false⟩ :=
  falsy_present_fields_rejected_without_runtime_ops okEnv
    ⟨some "", some "print(1+1)"⟩ (Or.inl rfl)

/-- Counterexample for C4 as stated: a wait result with an *absent*
(`undefined`) `StatusCode` is not caught by the strict `=== null` check, so
the handler answers `200` with the trimmed buffer instead of the claimed
`500 Execution timed out.`. -/
theorem undef_status_not_treated_as_timeout :
    (execute undefStatusEnv pyReq).response = ⟨200, RespBody.outB "2"⟩ ∧
    (execute undefStatusEnv pyReq).response.status ≠ 500 := by
  decide

/-- **C4 (amended).** Only a wait result whose `StatusCode` is strictly
`null` is treated as a timeout and answered
`500 {error: "Execution timed out."}`; an absent (`undefined`) `StatusCode`
escapes the `=== null` comparison and the handler proceeds to the `200`
success response. -/
theorem null_status_treated_as_timeout
    (env : DockerEnv) (req : ExecRequest) (imageName : String)
    (w : WaitResult)
    (hL : truthy req.language = true) (hC : truthy req.code = true)
    (himg : languageImageMap (req.language.getD "") = JsProp.str imageName)
    (hpull : (pullImage env imageName).1 = Except.ok ())
    (hcreate : env.createResult
      (mkConfig imageName
        (cmd (req.language.getD "") (req.code.getD ""))) = Except.ok ())
    (hstart : env.startResult = Except.ok ())
    (hwait : env.waitResult = Except.ok w) :
    (w.StatusCode = JsVal.null →
      (execute env req).response =
        ⟨500, RespBody.errB "Execution timed out."⟩) ∧
    (w.StatusCode = JsVal.undef →
      (execute env req).response =
        ⟨200, RespBody.outB (jsTrim (bufferedOutput env))⟩) := by
  constructor <;> intro hsc <;> unfold execute <;>
    simp [hL, hC, himg, hpull, hcreate, hstart, hwait, hsc, finalize]

/-- Witness for C4 (amended): a `null` status answers the timeout error, an
`undefined` status answers `200`. -/
theorem null_status_treated_as_timeout_witness :
    (execute nullStatusEnv pyReq).response =
      ⟨500, RespBody.errB "Execution timed out."⟩ ∧
    (execute undefStatusEnv pyReq).response = ⟨200, RespBody.outB "2"⟩ := by
  constructor
  · exact (null_status_treated_as_timeout nullStatusEnv pyReq
      "python:3.9-slim" ⟨JsVal.null⟩ (by decide) (by decide) (by decide)
      rfl rfl rfl rfl).1 rfl
  · have h := (null_status_treated_as_timeout undefStatusEnv pyReq
      "python:3.9-slim" ⟨JsVal.undef⟩ (by decide) (by decide) (by decide)
      rfl rfl rfl rfl).2 rfl
    rw [h]
    decide

/-- **C8.** `pullImage` pulls the image — awaiting its completion signal,
which `pullResult` folds in — if and only if the local image list filtered
by the reference is empty, and performs no pull otherwise; and every
container creation is preceded by a completed, successful `pullImage` run
for the mapped image. -/
theorem image_pulled_iff_absent_before_create
    (env : DockerEnv) (req : ExecRequest) :
    (∀ img, (env.localImages img).length = 0 →
      (pullImage env img).2 =
        [RuntimeOp.listImages img, RuntimeOp.pull img]) ∧
    (∀ img, (env.localImages img).length ≠ 0 →
      (pullImage env img).2 = [RuntimeOp.listImages img]) ∧
    (∀ config, RuntimeOp.createContainer config ∈ (execute env req).ops →
      ∃ imageName rest,
        languageImageMap (req.language.getD "") = JsProp.str imageName ∧
        (pullImage env imageName).1 = Except.ok () ∧
        (execute env req).ops = (pullImage env imageName).2 ++
          RuntimeOp.createContainer config :: rest) := by
  refine ⟨?_, ?_, ?_⟩
  · intro img h
    unfold pullImage
    rw [if_pos h]
  · intro img h
    unfold pullImage
    rw [if_neg h]
  · intro config h
    obtain ⟨_, _, imageName, rest, himg, hpull, _, hops, _⟩ :=
      execute_create_shape h
    exact ⟨imageName, rest, himg, hpull, hops⟩

/-- Witness for C8: with no local image the pull happens; with the image
present it does not. -/
theorem image_pulled_iff_absent_before_create_witness :
    (pullImage needPullEnv "python:3.9-slim").2 =
      [RuntimeOp.listImages "python:3.9-slim",
       RuntimeOp.pull "python:3.9-slim"] ∧
    (pullImage okEnv "python:3.9-slim").2 =
      [RuntimeOp.listImages "python:3.9-slim"] :=
  ⟨(image_pulled_iff_absent_before_create needPullEnv pyReq).1
      "python:3.9-slim" rfl,
   (image_pulled_iff_absent_before_create okEnv pyReq).2.1
      "python:3.9-slim" (by decide)⟩

/-- **C6.** Whenever a container was created, its removal is attempted in
the `finally` block as the very last runtime operation, whatever the
outcome (success, failure or timeout) was; and the prepared HTTP response
(status and body) does not depend on the removal result, so a removal
failure leaves it unchanged. -/
theorem removal_always_attempted_and_harmless
    (env : DockerEnv) (req : ExecRequest) (r : Except ErrObj Unit) :
    ((execute env req).containerCreated = true →
      (execute env req).ops.getLast? = some RuntimeOp.remove) ∧
    (execute { env with removeResult := r } req).response =
      (execute env req).response := by
  constructor
  · intro h
    rcases execute_branches env req with ⟨resp, hex⟩ | ⟨resp, name, hex⟩ |
      ⟨resp, img, hex⟩ | ⟨resp, img, hex⟩ | ⟨resp, img, runOps, hex⟩
    · rw [hex] at h
      simp at h
    · rw [hex] at h
      simp at h
    · rw [hex] at h
      simp at h
    · rw [hex] at h
      simp at h
    · rw [hex]
      exact finalize_ops_getLast env req img resp runOps
  · exact execute_removeResult_response env req r

/-- Witness for C6: in `okEnv` the removal attempt closes the trace, and a
failing removal leaves the response unchanged. -/
theorem removal_always_attempted_and_harmless_witness :
    (execute okEnv pyReq).ops.getLast? = some RuntimeOp.remove ∧
    (execute removeFailEnv pyReq).response = (execute okEnv pyReq).response
      := by
  have h := removal_always_attempted_and_harmless okEnv pyReq
    (Except.error ⟨some "remove failed", "stack:remove"⟩)
  exact ⟨h.1 (by decide), h.2⟩

/-- Counterexample for C7 as stated: when `container.remove()` fails, the
failure is only logged and the container is still present in the runtime's
list after the request completed (here with a 200), i.e. it outlives the
request. -/
theorem container_survives_failed_removal :
    (execute removeFailEnv pyReq).containerRemains = true ∧
    (execute removeFailEnv pyReq).response.status = 200 := by
  decide

/-- **C7 (amended).** Every request creates at most one container; whenever
a container was created its removal is attempted; when the removal attempt
succeeds the container does not remain in the runtime's container list, and
when no container was created nothing remains either.  (The container can
outlive the request only when the removal attempt itself fails.) -/
theorem at_most_one_container_and_gone_if_removal_succeeds
    (env : DockerEnv) (req : ExecRequest) :
    (execute env req).ops.countP isCreate ≤ 1 ∧
    ((execute env req).containerCreated = true →
      RuntimeOp.remove ∈ (execute env req).ops) ∧
    (env.removeResult = Except.ok () →
      (execute env req).containerRemains = false) ∧
    ((execute env req).containerCreated = false →
      (execute env req).containerRemains = false) := by
  refine ⟨?_, ?_, ?_, ?_⟩
  · by_cases h : ∃ config,
        RuntimeOp.createContainer config ∈ (execute env req).ops
    · obtain ⟨config, hmem⟩ := h
      obtain ⟨_, _, imageName, rest, _, _, _, hops, hrest⟩ :=
        execute_create_shape hmem
      have h1 : (pullImage env imageName).2.countP isCreate = 0 :=
        List.countP_eq_zero.mpr (fun a ha => by
          rcases pullImage_ops_sub ha with rfl | rfl <;> simp [isCreate])
      have h2 : rest.countP isCreate = 0 :=
        List.countP_eq_zero.mpr (fun a ha => by
          cases a <;> simp [isCreate] <;> exact hrest _ ha)
      rw [hops, List.countP_append, List.countP_cons, h1, h2]
      simp [isCreate]
    · push_neg at h
      have h0 : (execute env req).ops.countP isCreate = 0 :=
        List.countP_eq_zero.mpr (fun a ha => by
          cases a <;> simp [isCreate] <;> exact h _ ha)
      simp [h0]
  · intro h
    rcases execute_branches env req with ⟨resp, hex⟩ | ⟨resp, name, hex⟩ |
      ⟨resp, img, hex⟩ | ⟨resp, img, hex⟩ | ⟨resp, img, runOps, hex⟩ <;>
      rw [hex] at h ⊢
    · simp at h
    · simp at h
    · simp at h
    · simp at h
    · simp [finalize]
  · intro hr
    rcases execute_branches env req with ⟨resp, hex⟩ | ⟨resp, name, hex⟩ |
      ⟨resp, img, hex⟩ | ⟨resp, img, hex⟩ | ⟨resp, img, runOps, hex⟩ <;>
      rw [hex] <;> simp [finalize, hr]
  · intro h
    rcases execute_branches env req with ⟨resp, hex⟩ | ⟨resp, name, hex⟩ |
      ⟨resp, img, hex⟩ | ⟨resp, img, hex⟩ | ⟨resp, img, runOps, hex⟩ <;>
      rw [hex] at h ⊢ <;> simp_all [finalize]

/-- Witness for C7 (amended) at `okEnv`. -/
theorem at_most_one_container_and_gone_if_removal_succeeds_witness :
    (execute okEnv pyReq).ops.countP isCreate ≤ 1 ∧
    RuntimeOp.remove ∈ (execute okEnv pyReq).ops ∧
    (execute okEnv pyReq).containerRemains = false := by
  have h := at_most_one_container_and_gone_if_removal_succeeds okEnv pyReq
  exact ⟨h.1, h.2.1 (by decide), h.2.2.1 rfl⟩

/-- Counterexample for C5 as stated: an attach failure is delivered to the
attach callback, which only logs it and returns, so it is *not* answered
with a 500 — the run continues and (everything else succeeding) the handler
answers `200` with the empty buffer. -/
theorem attach_failure_not_answered_500 :
    (execute attachFailEnv pyReq).response = ⟨200, RespBody.outB ""⟩ ∧
    (execute attachFailEnv pyReq).response.status ≠ 500 := by
  decide

/-- **C5 (amended).** Every failure *thrown* after validation — image pull,
container create, start, wait, or the strict-null timeout — is answered
`500` with a JSON body holding exactly the error's `message` (the fixed
fallback `An error occurred during execution.` when the message is absent
or empty, and `Execution timed out.` for the thrown timeout error); the
handler result is invariant under erasing every stack trace from the
environment, so no stack trace ever reaches the client.  An attach failure,
by contrast, is only logged inside the attach callback and itself produces
no 500. -/
theorem thrown_failures_answer_500_with_message_only
    (env : DockerEnv) (req : ExecRequest) (imageName : String)
    (hL : truthy req.language = true) (hC : truthy req.code = true)
    (himg : languageImageMap (req.language.getD "") = JsProp.str imageName) :
    (∀ e, (pullImage env imageName).1 = Except.error e →
      (execute env req).response = ⟨500, RespBody.errB (errMessage e)⟩) ∧
    (∀ e, (pullImage env imageName).1 = Except.ok () →
      env.createResult (mkConfig imageName
        (cmd (req.language.getD "") (req.code.getD ""))) = Except.error e →
      (execute env req).response = ⟨500, RespBody.errB (errMessage e)⟩) ∧
    (∀ e, (pullImage env imageName).1 = Except.ok () →
      env.createResult (mkConfig imageName
        (cmd (req.language.getD "") (req.code.getD ""))) = Except.ok () →
      env.startResult = Except.error e →
      (execute env req).response = ⟨500, RespBody.errB (errMessage e)⟩) ∧
    (∀ e, (pullImage env imageName).1 = Except.ok () →
      env.createResult (mkConfig imageName
        (cmd (req.language.getD "") (req.code.getD ""))) = Except.ok () →
      env.startResult = Except.ok () →
      env.waitResult = Except.error e →
      (execute env req).response = ⟨500, RespBody.errB (errMessage e)⟩) ∧
    (∀ w, (pullImage env imageName).1 = Except.ok () →
      env.createResult (mkConfig imageName
        (cmd (req.language.getD "") (req.code.getD ""))) = Except.ok () →
      env.startResult = Except.ok () →
      env.waitResult = Except.ok w →
      w.StatusCode = JsVal.null →
      (execute env req).response =
        ⟨500, RespBody.errB "Execution timed out."⟩) ∧
    execute (scrubStacks env) req = execute env req := by
  refine ⟨?_, ?_, ?_, ?_, ?_, execute_ignores_stacks env req⟩
  · intro e hpr
    unfold execute
    simp [hL, hC, himg, hpr]
  · intro e hpr hc
    unfold execute
    simp [hL, hC, himg, hpr, hc]
  · intro e hpr hc hs
    unfold execute
    simp [hL, hC, himg, hpr, hc, hs, finalize]
  · intro e hpr hc hs hw
    unfold execute
    simp [hL, hC, himg, hpr, hc, hs, hw, finalize]
  · intro w hpr hc hs hw hsc
    unfold execute
    simp [hL, hC, himg, hpr, hc, hs, hw, hsc, finalize]

/-- Witness for C5 (amended): a failing pull in `pullFailEnv` answers 500
with the pull error's message, and scrubbing the stacks of `pullFailEnv`
leaves the handler result unchanged. -/
theorem thrown_failures_answer_500_with_message_only_witness :
    (execute pullFailEnv pyReq).response =
      ⟨500, RespBody.errB "pull failed"⟩ ∧
    execute (scrubStacks pullFailEnv) pyReq = execute pullFailEnv pyReq
      := by
  have h := thrown_failures_answer_500_with_message_only pullFailEnv pyReq
    "python:3.9-slim" (by decide) (by decide) (by decide)
  constructor
  · have h1 := h.1 ⟨some "pull failed", "stack:pull"⟩ rfl
    rw [h1]
    decide
  · exact h.2.2.2.2.2

end CodeRunner
